import Mathlib

/-!
Verification of the card-viewer components.

Shallow embedding of the two source files:
  * `src/components/CardBasicInfo.tsx` — mana-cost tokenizer
    (`parseManaSymbols`) and symbol classifier (`getManaSymbolColor`);
  * `src/components/CardImageViewer.tsx` — image-loading lifecycle
    (the `imageError` / `imageLoaded` flags, the signal handlers and the
    render branch), with the source-URL resolution of line 35.

JavaScript strings are embedded as `String` / `List Char`; `null` /
`undefined` inputs are embedded as `none : Option String`; JavaScript
falsiness of a string value (`undefined`, `null` or `""`) is made explicit
where the code relies on it.
-/

namespace MTG

/-! ## Tokenizer (CardBasicInfo.tsx, lines 16-27)

The source runs `/\x7b([^\x7d]+)\x7d/g` in a `regex.exec` loop, collecting
capture group 1 of each match.  The regex engine finds successive
non-overlapping leftmost matches; `[^\x7d]+` is a maximal run of
non-`\x7d` characters (it cannot backtrack, because shortening the run
never exposes a `\x7d`), so a match starting at an opening brace extends
to the next closing brace, which must not be immediate.  A failed start
position is retried one character later.  This is equivalent to the
single left-to-right pass below: outside a candidate match (`none`) an
opening brace starts an empty accumulator; inside (`some acc`) a closing
brace emits the accumulator when it is nonempty (and emits nothing for
the empty `\x7b\x7d` candidate, where the regex fails and retries at the
closing brace), and every other character — including a further opening
brace — is appended to the accumulator. -/
def scanAux : List Char → Option (List Char) → List String
  | [], _ => []
  | c :: rest, none =>
      if c = '\x7b' then scanAux rest (some []) else scanAux rest none
  | c :: rest, some acc =>
      if c = '\x7d' then
        if acc = [] then scanAux rest none
        else acc.asString :: scanAux rest none
      else scanAux rest (some (acc ++ [c]))

/-- `parseManaSymbols` (CardBasicInfo.tsx, lines 16-27).  The guard
`if (!manaCost) return []` fires on `null` / `undefined` (embedded as
`none`) and on the empty string, both falsy in JavaScript. -/
def parseManaSymbols : Option String → List String
  | none => []
  | some s => if s = "" then [] else scanAux s.data none

/-! ## Symbol classifier (CardBasicInfo.tsx, lines 48-65) -/

/-- A JavaScript value as it flows out of the expression
`colorMap[symbol] || 'bg-gray-200 ...'` on line 64: a string, or a
member inherited from `Object.prototype` — a function such as
`constructor` or `toString`, or the object `Object.prototype` itself for
the `__proto__` accessor — identified here by the key that reached it,
or `undefined`. -/
inductive JsValue where
  | str : String → JsValue
  | inheritedMember : String → JsValue
  | undefined : JsValue
deriving DecidableEq

/-- JavaScript truthiness of such a value: the empty string and
`undefined` are falsy; a nonempty string is truthy; an inherited member
is a function or a non-null object, hence truthy. -/
def jsTruthy : JsValue → Bool
  | JsValue.str s => !s.isEmpty
  | JsValue.inheritedMember _ => true
  | JsValue.undefined => false

/-- The property keys an ordinary object literal inherits from
`Object.prototype`: reading any of them on `colorMap` yields a truthy
non-string (a function, or `Object.prototype` itself for `__proto__`)
instead of `undefined`. -/
def objectProtoKeys : List String :=
  ["constructor", "hasOwnProperty", "isPrototypeOf",
   "propertyIsEnumerable", "toLocaleString", "toString", "valueOf",
   "__proto__", "__defineGetter__", "__defineSetter__",
   "__lookupGetter__", "__lookupSetter__"]

/-- The property read `colorMap[symbol]` on the object literal of lines
49-56: an own key yields its string value; a key the literal inherits
from `Object.prototype` yields that inherited truthy non-string member;
any other key yields `undefined`. -/
def colorMap (symbol : String) : JsValue :=
  if symbol = "W" then JsValue.str "bg-yellow-50 text-yellow-800 border-yellow-300"
  else if symbol = "U" then JsValue.str "bg-blue-100 text-blue-800 border-blue-300"
  else if symbol = "B" then JsValue.str "bg-gray-800 text-white border-gray-900"
  else if symbol = "R" then JsValue.str "bg-red-100 text-red-800 border-red-300"
  else if symbol = "G" then JsValue.str "bg-green-100 text-green-800 border-green-300"
  else if symbol = "C" then JsValue.str "bg-gray-300 text-gray-700 border-gray-400"
  else if symbol ∈ objectProtoKeys then JsValue.inheritedMember symbol
  else JsValue.undefined

/-- `getManaSymbolColor` (lines 48-65): first the digit test
`/^\d+$/.test(symbol)` (one or more ASCII decimal digits), then
`colorMap[symbol] || default` — the lookup result itself when truthy
(which for a token naming an inherited `Object.prototype` member is
that member, not a class string), the default string otherwise. -/
def getManaSymbolColor (symbol : String) : JsValue :=
  if !symbol.isEmpty && symbol.data.all Char.isDigit then
    JsValue.str "bg-gray-200 text-gray-700 border-gray-300"
  else if jsTruthy (colorMap symbol) then colorMap symbol
  else JsValue.str "bg-gray-200 text-gray-700 border-gray-300"

/-! ## Spec-side classifier definitions -/

/-- The symbol kinds named by the specification (§4.2). -/
inductive SymbolKind where
  | Numeric : SymbolKind
  | White : SymbolKind
  | Blue : SymbolKind
  | Black : SymbolKind
  | Red : SymbolKind
  | Green : SymbolKind
  | Colorless : SymbolKind
  | Unknown : SymbolKind
deriving DecidableEq

/-- Classifier written from the words of claim C3: digit-only tokens are
Numeric, each of W/U/B/R/G its unique color, and *any other token*
(hence also "C") is Unknown. -/
def classifyClaim (token : String) : SymbolKind :=
  if !token.isEmpty && token.data.all Char.isDigit then SymbolKind.Numeric
  else if token = "W" then SymbolKind.White
  else if token = "U" then SymbolKind.Blue
  else if token = "B" then SymbolKind.Black
  else if token = "R" then SymbolKind.Red
  else if token = "G" then SymbolKind.Green
  else SymbolKind.Unknown

/-- Amended classifier: as `classifyClaim`, except that the token "C"
is recognized as Colorless (matching the code's `colorMap` and the
specification's full kind list in §4.2). -/
def classify (token : String) : SymbolKind :=
  if !token.isEmpty && token.data.all Char.isDigit then SymbolKind.Numeric
  else if token = "W" then SymbolKind.White
  else if token = "U" then SymbolKind.Blue
  else if token = "B" then SymbolKind.Black
  else if token = "R" then SymbolKind.Red
  else if token = "G" then SymbolKind.Green
  else if token = "C" then SymbolKind.Colorless
  else SymbolKind.Unknown

/-- The presentation (CSS class string) attached to each kind; the
values are the string literals of CardBasicInfo.tsx lines 50-60,64.
Unknown maps to the defined default presentation (equal, in this code,
to the Numeric one). -/
def styleOfKind : SymbolKind → String
  | SymbolKind.Numeric => "bg-gray-200 text-gray-700 border-gray-300"
  | SymbolKind.White => "bg-yellow-50 text-yellow-800 border-yellow-300"
  | SymbolKind.Blue => "bg-blue-100 text-blue-800 border-blue-300"
  | SymbolKind.Black => "bg-gray-800 text-white border-gray-900"
  | SymbolKind.Red => "bg-red-100 text-red-800 border-red-300"
  | SymbolKind.Green => "bg-green-100 text-green-800 border-green-300"
  | SymbolKind.Colorless => "bg-gray-300 text-gray-700 border-gray-400"
  | SymbolKind.Unknown => "bg-gray-200 text-gray-700 border-gray-300"

/-! ## Spec-side tokenizers -/

/-- Tokenizer written from the words of claim C2: one token per maximal
substring enclosed in a matching brace pair *whose interior contains no
further braces*, in order of appearance; text outside such pairs is
dropped.  Operationally: a candidate opened at an opening brace is
completed by the next brace if that brace is closing (emitting the
interior when nonempty), and is abandoned — restarting at the inner
opening brace — if the next brace is another opening one. -/
def specScanAux : List Char → Option (List Char) → List String
  | [], _ => []
  | c :: rest, none =>
      if c = '\x7b' then specScanAux rest (some []) else specScanAux rest none
  | c :: rest, some acc =>
      if c = '\x7d' then
        if acc = [] then specScanAux rest none
        else acc.asString :: specScanAux rest none
      else if c = '\x7b' then specScanAux rest (some [])
      else specScanAux rest (some (acc ++ [c]))

/-- Claim C2's extraction rule on strings. -/
def specTokenize (s : String) : List String := specScanAux s.data none

/-- Amended extraction rule: as `specScanAux`, except that a further
opening brace inside a candidate does *not* abandon it — the interior of
a token extends to the next closing brace and may contain opening
braces. -/
def specAmendedAux : List Char → Option (List Char) → List String
  | [], _ => []
  | c :: rest, none =>
      if c = '\x7b' then specAmendedAux rest (some []) else specAmendedAux rest none
  | c :: rest, some acc =>
      if c = '\x7d' then
        if acc = [] then specAmendedAux rest none
        else acc.asString :: specAmendedAux rest none
      else specAmendedAux rest (some (acc ++ [c]))

/-- The amended claim-C2 extraction rule on strings. -/
def specTokenizeAmended (s : String) : List String := specAmendedAux s.data none

/-! ## Card record

Modelled from the spec: the type declaration file (`src/types/card.ts`)
is not part of the repository — only its importers are — so the record
shape follows §3 of the specification ("name (string) … image URL(s)
possibly at multiple resolutions") and the optional-chaining use
`card.imageUrls?.large || card.imageUrls?.normal || card.imageUrl` in
CardImageViewer.tsx line 35.  Absent (`undefined`) fields are `none`.
Only the fields the verified claims touch are included. -/
structure ImageUrls where
  large : Option String
  normal : Option String

/-- Modelled from the spec: see `ImageUrls`. -/
structure Card where
  name : String
  manaCost : Option String
  imageUrls : Option ImageUrls
  imageUrl : Option String

/-! ## Image source resolution (CardImageViewer.tsx, line 35) -/

/-- JavaScript `a || b` on string-or-undefined values: returns `b`
exactly when `a` is falsy (`undefined` or the empty string), and `a`
itself otherwise. -/
def jsOrString (a b : Option String) : Option String :=
  if a = none ∨ a = some "" then b else a

/-- Line 35: `card.imageUrls?.large || card.imageUrls?.normal ||
card.imageUrl` (the `?.` chains give `none` when `imageUrls` is
absent). -/
def resolveImageUrl (c : Card) : Option String :=
  jsOrString (jsOrString (c.imageUrls.bind ImageUrls.large)
      (c.imageUrls.bind ImageUrls.normal)) c.imageUrl

/-- The candidate list of claim C6, in its stated preference order. -/
def candidateUrls (c : Card) : List (Option String) :=
  [c.imageUrls.bind ImageUrls.large, c.imageUrls.bind ImageUrls.normal,
    c.imageUrl]

/-- Spec-side selection rule of claim C6: the first candidate that is a
nonempty string. -/
def firstNonEmpty : List (Option String) → Option String
  | [] => none
  | none :: rest => firstNonEmpty rest
  | some s :: rest => if s = "" then firstNonEmpty rest else some s

/-! ## Image-loading lifecycle (CardImageViewer.tsx, lines 26-111)

The component's only mutable state is the two `useState(false)` booleans
`imageError` and `imageLoaded` (lines 31-32).  The resolved source URL is
recomputed from the `card` prop on every render (line 35); we keep the
currently supplied value in the state record so that "a re-render with a
new / the same source" is expressible as an event.  Crucially, the
component has no `key` and no effect hook: a re-render with a different
card changes only the resolved URL, the two `useState` booleans persist.
Only a fresh mount starts them at `false`. -/
structure ViewerState where
  imageError : Bool
  imageLoaded : Bool
  src : Option String
deriving DecidableEq

/-- A fresh mount with resolved source `u`: both `useState(false)` hooks
(lines 31-32). -/
def initViewer (u : Option String) : ViewerState :=
  { imageError := false, imageLoaded := false, src := u }

/-- The three stimuli the component reacts to: the image's error signal
(`onError`, line 87), its success signal (`onLoad`, line 88), and a
re-render that supplies a (possibly different) resolved source. -/
inductive Event where
  | errorSignal : Event
  | loadSignal : Event
  | newSource : Option String → Event
deriving DecidableEq

/-- One step of the component: `handleImageError` sets `imageError`
(lines 41-43), `handleImageLoad` sets `imageLoaded` (lines 45-47), and a
re-render with a new card replaces the resolved source while the
`useState` booleans persist (no reset logic exists in the component). -/
def step : ViewerState → Event → ViewerState
  | s, Event.errorSignal => { s with imageError := true }
  | s, Event.loadSignal => { s with imageLoaded := true }
  | s, Event.newSource u => { s with src := u }

/-- The three lifecycle states named by the specification (§3, §4.3). -/
inductive ImageLoadState where
  | Loading : ImageLoadState
  | Loaded : ImageLoadState
  | Failed : ImageLoadState
deriving DecidableEq

/-- The lifecycle state the render tree exhibits (lines 59-108): the
fallback branch iff `imageError`; otherwise the skeleton is present and
the image transparent until `imageLoaded` (lines 62-70, 79-81). -/
def loadState (s : ViewerState) : ImageLoadState :=
  if s.imageError then ImageLoadState.Failed
  else if s.imageLoaded then ImageLoadState.Loaded
  else ImageLoadState.Loading

/-- The render tree, abstracted to the branch structure of lines 59-108:
either the picture branch (skeleton shown iff not loaded, the `Image`
element with its resolved source and alt text, visible iff loaded), or
the error-fallback branch (icon, card name, notice — lines 93-108). -/
inductive View where
  | picture : Bool → Option String → String → Bool → View
  | fallback : String → String → String → View
deriving DecidableEq

/-- The component's render function (lines 49-110). -/
def render (c : Card) (s : ViewerState) : View :=
  if s.imageError then View.fallback "🃏" c.name "Image not available"
  else View.picture (!s.imageLoaded) (resolveImageUrl c)
    (c.name ++ " card image") s.imageLoaded

/-- The amended transition table of claim C1, written from the amended
claim's words: Failed is absorbing under every signal and every source
change; Loaded stays Loaded except that an error signal moves it to
Failed; Loading moves to Loaded on success and Failed on error, and a
source change never resets anything (so Loading recurs only at a fresh
mount). -/
def nextState : ImageLoadState → Event → ImageLoadState
  | ImageLoadState.Failed, _ => ImageLoadState.Failed
  | ImageLoadState.Loaded, Event.errorSignal => ImageLoadState.Failed
  | ImageLoadState.Loaded, _ => ImageLoadState.Loaded
  | ImageLoadState.Loading, Event.errorSignal => ImageLoadState.Failed
  | ImageLoadState.Loading, Event.loadSignal => ImageLoadState.Loaded
  | ImageLoadState.Loading, Event.newSource _ => ImageLoadState.Loading

/-! ## Helper lemmas -/

/-- The code scanner and the amended extraction rule coincide. -/
theorem scanAux_eq_specAmendedAux (l : List Char) (m : Option (List Char)) :
    scanAux l m = specAmendedAux l m := by
  induction l generalizing m with
  | nil => cases m <;> rfl
  | cons c rest ih =>
    cases m with
    | none =>
      by_cases h : c = '\x7b' <;> simp [scanAux, specAmendedAux, h, ih]
    | some acc =>
      by_cases h : c = '\x7d'
      · by_cases h2 : acc = [] <;> simp [scanAux, specAmendedAux, h, h2, ih]
      · simp [scanAux, specAmendedAux, h, ih]

/-- Every token the scanner emits is a nonempty string free of closing
braces, provided the running accumulator is. -/
theorem scanAux_token_shape (l : List Char) (m : Option (List Char))
    (hm : ∀ a, m = some a → '\x7d' ∉ a) :
    ∀ t ∈ scanAux l m, t ≠ "" ∧ '\x7d' ∉ t.data := by
  induction l generalizing m with
  | nil => intro t ht; cases m <;> simp [scanAux] at ht
  | cons c rest ih =>
    cases m with
    | none =>
      by_cases h : c = '\x7b'
      · simpa [scanAux, h] using ih (some []) (by intro a ha; cases ha; simp)
      · simpa [scanAux, h] using ih none (by intro a ha; cases ha)
    | some acc =>
      have hacc : '\x7d' ∉ acc := hm acc rfl
      by_cases h : c = '\x7d'
      · by_cases h2 : acc = []
        · simpa [scanAux, h, h2] using ih none (by intro a ha; cases ha)
        · intro t ht
          simp only [scanAux, h, if_true, ite_true, if_neg h2,
            List.mem_cons] at ht
          rcases ht with ht | ht
          · subst ht
            refine ⟨?_, ?_⟩
            · intro hstr
              exact h2 (by simpa using congrArg String.data hstr)
            · simpa using hacc
          · exact ih none (by intro a ha; cases ha) t ht
      · intro t ht
        simp only [scanAux, if_neg h] at ht
        refine ih (some (acc ++ [c])) ?_ t ht
        intro a ha
        cases ha
        simp only [List.mem_append, List.mem_singleton]
        rintro (h1 | h1)
        · exact hacc h1
        · exact h h1.symm

/-- A string with no closing brace produces no token, from any scanner
mode. -/
theorem scanAux_no_close (l : List Char) :
    ∀ m : Option (List Char), '\x7d' ∉ l → scanAux l m = [] := by
  induction l with
  | nil => intro m _; cases m <;> rfl
  | cons c rest ih =>
    intro m hl
    have hc : c ≠ '\x7d' := fun h => hl (by simp [h])
    have hrest : '\x7d' ∉ rest := fun h => hl (by simp [h])
    cases m with
    | none => by_cases h : c = '\x7b' <;> simp [scanAux, h, hc, ih _ hrest]
    | some acc => simp [scanAux, hc, ih _ hrest]

/-- A string with no opening brace produces no token. -/
theorem scanAux_no_open (l : List Char) :
    '\x7b' ∉ l → scanAux l none = [] := by
  induction l with
  | nil => intro _; rfl
  | cons c rest ih =>
    intro hl
    have hc : c ≠ '\x7b' := fun h => hl (by simp [h])
    have hrest : '\x7b' ∉ rest := fun h => hl (by simp [h])
    simp [scanAux, hc, ih hrest]

/-- The chained JavaScript `||` picks the first non-falsy of three
string-or-undefined candidates whenever a nonempty candidate exists. -/
theorem jsOr_first (a b d : Option String) (u : String)
    (h : firstNonEmpty [a, b, d] = some u) :
    jsOrString (jsOrString a b) d = some u := by
  by_cases hA : a = none ∨ a = some "" <;>
    by_cases hB : b = none ∨ b = some "" <;>
    by_cases hD : d = none ∨ d = some "" <;>
    rcases a with _ | sa <;> rcases b with _ | sb <;> rcases d with _ | sd <;>
    simp_all [firstNonEmpty, jsOrString]

/-! ## Claims -/

/-- Claim C8 (confirmed): tokenize applied to the empty string or to an
absent (null/undefined) input returns the empty sequence. -/
theorem C8_empty_input :
    parseManaSymbols none = [] ∧ parseManaSymbols (some "") = [] :=
  ⟨rfl, rfl⟩

/-- Claim C2, counterexample: on the input `"\x7ba\x7bb\x7d"` the code
returns the single token `"a\x7bb"` (the regex class `[^\x7d]+` admits
opening braces), while the claimed extraction rule — one token per
matching pair whose interior contains no further braces — returns
`"b"`. -/
theorem C2_counterexample :
    parseManaSymbols (some "\x7ba\x7bb\x7d") = ["a\x7bb"] ∧
    specTokenize "\x7ba\x7bb\x7d" = ["b"] ∧
    parseManaSymbols (some "\x7ba\x7bb\x7d") ≠ specTokenize "\x7ba\x7bb\x7d" :=
  ⟨by decide, by decide, by decide⟩

/-- Claim C2 (corrected): for every input string, tokenize scans left to
right and returns one token per maximal substring enclosed between an
opening brace and the next closing brace, the interior being nonempty
and free of closing braces but possibly containing further opening
braces (which become part of the token), in order of appearance;
characters outside such pairs produce no token. -/
theorem C2_amended_tokenize (s : String) :
    parseManaSymbols (some s) = specTokenizeAmended s := by
  by_cases h : s = ""
  · subst h; rfl
  · simp [parseManaSymbols, h, specTokenizeAmended, scanAux_eq_specAmendedAux]

/-- Claim C7 (confirmed): tokenize is total — it is a total function by
construction, so every input, however malformed, yields a (possibly
empty) token list and no error — and unbalanced portions yield no
token: a string with no closing brace (e.g. a run of unmatched opening
braces) and a string with no opening brace both tokenize to the empty
list. -/
theorem C7_tokenize_total (s : String) :
    ('\x7d' ∉ s.data → parseManaSymbols (some s) = []) ∧
    ('\x7b' ∉ s.data → parseManaSymbols (some s) = []) := by
  constructor
  · intro h
    by_cases hs : s = ""
    · simp [hs, parseManaSymbols]
    · simp [parseManaSymbols, hs, scanAux_no_close s.data none h]
  · intro h
    by_cases hs : s = ""
    · simp [hs, parseManaSymbols]
    · simp [parseManaSymbols, hs, scanAux_no_open s.data h]

/-- Concrete instance of claim C7 at the brace-free input `"2UU"`. -/
theorem C7_tokenize_total_witness :
    ('\x7d' ∉ "2UU".data ∧ parseManaSymbols (some "2UU") = []) ∧
    ('\x7b' ∉ "2UU".data ∧ parseManaSymbols (some "2UU") = []) :=
  ⟨⟨by decide, (C7_tokenize_total "2UU").1 (by decide)⟩,
   ⟨by decide, (C7_tokenize_total "2UU").2 (by decide)⟩⟩

/-- Claim C9 (confirmed): every token returned by `parseManaSymbols` is
nonempty and contains no closing brace; the input `"\x7b\x7d"` yields no
token. -/
theorem C9_token_shape :
    (∀ s t : String,
      t ∈ parseManaSymbols (some s) → t ≠ "" ∧ '\x7d' ∉ t.data) ∧
    parseManaSymbols (some "\x7b\x7d") = [] := by
  constructor
  · intro s t ht
    by_cases h : s = ""
    · simp [parseManaSymbols, h] at ht
    · exact scanAux_token_shape s.data none (by intro a ha; cases ha) t
        (by simpa [parseManaSymbols, h] using ht)
  · decide

/-- Concrete instance of claim C9 at the input `"\x7bW\x7d"` and its
token `"W"`. -/
theorem C9_token_shape_witness :
    "W" ∈ parseManaSymbols (some "\x7bW\x7d") ∧
    ("W" ≠ "" ∧ '\x7d' ∉ "W".data) :=
  ⟨by decide, C9_token_shape.1 "\x7bW\x7d" "W" (by decide)⟩

/-- Claim C3, counterexample: two tokens that are neither digit strings
nor one of W/U/B/R/G, so the claim assigns them the default Unknown
presentation, yet the code does not.  `"C"` is an own key of `colorMap`
and gets its distinct colorless style; `"constructor"` reaches the
member `colorMap` inherits from `Object.prototype`, which is truthy, so
`colorMap[symbol] || default` yields that non-string member rather than
the default class string. -/
theorem C3_counterexample :
    classifyClaim "C" = SymbolKind.Unknown ∧
    getManaSymbolColor "C" =
      JsValue.str "bg-gray-300 text-gray-700 border-gray-400" ∧
    getManaSymbolColor "C" ≠ JsValue.str (styleOfKind (classifyClaim "C")) ∧
    classifyClaim "constructor" = SymbolKind.Unknown ∧
    getManaSymbolColor "constructor" = JsValue.inheritedMember "constructor" ∧
    getManaSymbolColor "constructor" ≠
      JsValue.str (styleOfKind (classifyClaim "constructor")) :=
  ⟨by decide, by decide, by decide, by decide, by decide, by decide⟩

/-- Claim C3 (corrected): the symbol classifier maps any token of one or
more decimal digits to the Numeric presentation, each of W, U, B, R, G
to its unique color presentation, C to a distinct Colorless
presentation, and any other token — except the twelve names of members
an object literal inherits from `Object.prototype` — to the defined
default (Unknown) presentation; a token naming an inherited
`Object.prototype` member instead yields that inherited truthy
non-string member; the function is total, so it never throws. -/
theorem C3_amended_classifier (token : String) :
    (token ∉ objectProtoKeys →
      getManaSymbolColor token = JsValue.str (styleOfKind (classify token))) ∧
    (token ∈ objectProtoKeys →
      getManaSymbolColor token = JsValue.inheritedMember token) := by
  constructor
  · intro hp
    by_cases hd : (!token.isEmpty && token.data.all Char.isDigit) = true
    · simp [getManaSymbolColor, classify, hd, styleOfKind]
    · rcases eq_or_ne token "W" with h | hW
      · subst h; decide
      rcases eq_or_ne token "U" with h | hU
      · subst h; decide
      rcases eq_or_ne token "B" with h | hB
      · subst h; decide
      rcases eq_or_ne token "R" with h | hR
      · subst h; decide
      rcases eq_or_ne token "G" with h | hG
      · subst h; decide
      rcases eq_or_ne token "C" with h | hC
      · subst h; decide
      have hcm : colorMap token = JsValue.undefined := by
        simp [colorMap, hW, hU, hB, hR, hG, hC, hp]
      simp [getManaSymbolColor, classify, hd, hW, hU, hB, hR, hG, hC,
        hcm, jsTruthy, styleOfKind]
  · intro hp
    simp only [objectProtoKeys, List.mem_cons, List.not_mem_nil,
      or_false] at hp
    rcases hp with h | h | h | h | h | h | h | h | h | h | h | h <;>
      subst h <;> decide

/-- Concrete instances of claim C3: the unrecognized token `"X"` gets
the default presentation, and the token `"toString"`, naming an
inherited `Object.prototype` member, gets that member. -/
theorem C3_amended_classifier_witness :
    ("X" ∉ objectProtoKeys ∧
      getManaSymbolColor "X" = JsValue.str (styleOfKind (classify "X"))) ∧
    ("toString" ∈ objectProtoKeys ∧
      getManaSymbolColor "toString" = JsValue.inheritedMember "toString") :=
  ⟨⟨by decide, (C3_amended_classifier "X").1 (by decide)⟩,
   ⟨by decide, (C3_amended_classifier "toString").2 (by decide)⟩⟩

/-- Claim C1, counterexample: the trace mount → success signal → error
signal → new source URL.  After the success signal the state is Loaded,
yet the error signal moves it to Failed; and supplying a new URL leaves
it Failed — the flags are not reset, so the loader does not re-enter
Loading. -/
theorem C1_counterexample :
    loadState (step (initViewer (some "a")) Event.loadSignal) =
      ImageLoadState.Loaded ∧
    loadState (step (step (initViewer (some "a")) Event.loadSignal)
      Event.errorSignal) = ImageLoadState.Failed ∧
    loadState (step (step (step (initViewer (some "a")) Event.loadSignal)
      Event.errorSignal) (Event.newSource (some "b"))) =
      ImageLoadState.Failed ∧
    loadState (step (step (step (initViewer (some "a")) Event.loadSignal)
      Event.errorSignal) (Event.newSource (some "b"))) ≠
      ImageLoadState.Loading :=
  ⟨rfl, rfl, rfl, by decide⟩

/-- Claim C1 (corrected): the loader evolves by the transition table
`nextState` — Failed is absorbing under every load/error signal and
every source change; Loaded stays Loaded under load signals and source
changes but an error signal moves it to Failed; Loading goes to Loaded
on success and Failed on error; and a change of the source identity
never resets the flags, so a mounted instance never re-enters Loading
(Loading recurs only at a fresh mount). -/
theorem C1_amended_transitions (s : ViewerState) (e : Event) :
    loadState (step s e) = nextState (loadState s) e := by
  obtain ⟨err, ld, src⟩ := s
  cases err <;> cases ld <;> cases e <;> rfl

/-- Claim C4 (confirmed): for every image source the freshly mounted
loader is Loading; the success signal then makes it Loaded; and a
re-render that supplies the same resolved source leaves the state record
unchanged, so it remains Loaded. -/
theorem C4_initial_loading (u : Option String) (s : ViewerState) :
    loadState (initViewer u) = ImageLoadState.Loading ∧
    loadState (step (initViewer u) Event.loadSignal) =
      ImageLoadState.Loaded ∧
    step s (Event.newSource s.src) = s := by
  refine ⟨rfl, rfl, ?_⟩
  obtain ⟨err, ld, src⟩ := s
  rfl

/-- Claim C5 (confirmed): once the error signal fires, the component
renders the deterministic fallback — icon, card name and the "Image not
available" notice — instead of the image element, and after any further
event the `imageError` flag is still set, so no image element (hence no
retry) ever reappears; `render` is a total function, so the failure is
contained and never propagated as a thrown error. -/
theorem C5_error_fallback (c : Card) (s : ViewerState) :
    render c (step s Event.errorSignal) =
      View.fallback "🃏" c.name "Image not available" ∧
    ∀ e : Event, (step (step s Event.errorSignal) e).imageError = true := by
  refine ⟨rfl, ?_⟩
  intro e; cases e <;> rfl

/-- Claim C6 (confirmed): the loader resolves the image source to the
first non-empty candidate in the preference order imageUrls.large,
imageUrls.normal, imageUrl, whenever some candidate is non-empty. -/
theorem C6_source_resolution (c : Card) (u : String)
    (h : firstNonEmpty (candidateUrls c) = some u) :
    resolveImageUrl c = some u :=
  jsOr_first _ _ _ u h

/-- Concrete instance of claim C6: a card whose large URL is absent and
whose normal URL is `"N"` resolves to `"N"`. -/
theorem C6_source_resolution_witness :
    firstNonEmpty (candidateUrls
      { name := "Black Lotus", manaCost := none,
        imageUrls := some { large := none, normal := some "N" },
        imageUrl := some "F" }) = some "N" ∧
    resolveImageUrl
      { name := "Black Lotus", manaCost := none,
        imageUrls := some { large := none, normal := some "N" },
        imageUrl := some "F" } = some "N" :=
  ⟨by decide, C6_source_resolution _ "N" (by decide)⟩

/-- Claim C10 (confirmed): within an instance, the `imageError` and
`imageLoaded` flags are monotone — any event preserves a set flag — and
whenever the error flag is set (in particular when both signals have
fired) the render tree is the Failed fallback: error takes precedence
over loaded. -/
theorem C10_monotone_flags (c : Card) (s : ViewerState) (e : Event) :
    (s.imageError = true → (step s e).imageError = true) ∧
    (s.imageLoaded = true → (step s e).imageLoaded = true) ∧
    (s.imageError = true → s.imageLoaded = true →
      loadState s = ImageLoadState.Failed ∧
      render c s = View.fallback "🃏" c.name "Image not available") := by
  refine ⟨?_, ?_, ?_⟩
  · intro h; cases e <;> simp [step, h]
  · intro h; cases e <;> simp [step, h]
  · intro h1 _
    exact ⟨by simp [loadState, h1], by simp [render, h1]⟩

/-- Concrete instance of claim C10 at the state with both flags set. -/
theorem C10_monotone_flags_witness :
    (step ⟨true, true, none⟩ Event.loadSignal).imageError = true ∧
    (step ⟨true, true, none⟩ Event.loadSignal).imageLoaded = true ∧
    (loadState ⟨true, true, none⟩ = ImageLoadState.Failed ∧
      render
        { name := "Black Lotus", manaCost := none, imageUrls := none,
          imageUrl := none }
        ⟨true, true, none⟩ =
        View.fallback "🃏" "Black Lotus" "Image not available") := by
  obtain ⟨h1, h2, h3⟩ := C10_monotone_flags
    { name := "Black Lotus", manaCost := none, imageUrls := none,
      imageUrl := none }
    ⟨true, true, none⟩ Event.loadSignal
  exact ⟨h1 rfl, h2 rfl, h3 rfl rfl⟩

end MTG
